import Mathlib

/-!
Verification of the restore command (`cmd/restic/cmd_restore.go`).

The development shallowly embeds the decision logic of the file:

* the two per-node selector closures `selectExcludeFilter` and
  `selectIncludeFilter` built inside `runRestore`;
* the error/warning callbacks installed on the restorer (`res.Error`,
  `res.Warn`) together with the closure-captured `totalErrors` counter,
  modelled as explicit state passing over a `Session`;
* the sequential control flow of `runRestore` itself, with every external
  collaborator (pattern compilation, repository opening, snapshot
  resolution, index load, subtree lookup, the restore/verify engine and
  the wall clock) supplied as data in a `World` record.

Engine activity during `RestoreTo` / `VerifyFiles` is modelled as the list
of callback invocations the engine performs (`EngineEvent`), folded over
the session exactly as the installed callbacks would run.
-/

namespace Restore

/-- A snapshot tree entry as seen by the selector: only its `Type` field is
consulted (`node.Type == "dir"`). -/
structure Node where
  type : String

/-- A compiled exclude predicate (`rejectFn`): path ↦ matched. -/
abbrev RejectFn := String → Bool

/-- A compiled include predicate (`includeFn`): path ↦ (selected, childMayMatch). -/
abbrev IncludeFn := String → Bool × Bool

/-- The exclude-mode selector closure from `runRestore`.  The Go loop body
ends in an unconditional `return`, so only the head predicate is ever
evaluated; an empty list falls through to the zero-valued named returns. -/
def selectExcludeFilter (excludePatternFns : List RejectFn) (item : String)
    (node : Node) : Bool × Bool :=
  match excludePatternFns with
  | [] => (false, false)
  | rejectFn :: _ =>
    let matched := rejectFn item
    let selectedForRestore := !matched
    let childMayBeSelected := selectedForRestore && (node.type == "dir")
    (selectedForRestore, childMayBeSelected)

/-- The include-mode selector closure from `runRestore`.  The Go loop
overwrites both named results on every iteration (starting from the zero
values), and after the loop `childMayBeSelected` is ANDed with
`node.Type == "dir"`. -/
def selectIncludeFilter (includePatternFns : List IncludeFn) (item : String)
    (node : Node) : Bool × Bool :=
  let r := includePatternFns.foldl (fun _ includeFn => includeFn item) (false, false)
  (r.1, r.2 && (node.type == "dir"))

end Restore

namespace Restore

/-- C1: In Exclude mode with a non-empty predicate list the decision is fully
determined by the first predicate: `selectedForRestore = !matched` and
`childMayBeSelected = selectedForRestore && node.Type == "dir"`, and the
tail of the list (any tail, e.g. one containing an always-matching
predicate) never influences the decision. -/
theorem exclude_first_predicate_only (p : RejectFn) (rest rest2 : List RejectFn)
    (item : String) (node : Node) :
    selectExcludeFilter (p :: rest) item node =
      (!(p item), !(p item) && (node.type == "dir"))
    ∧ selectExcludeFilter (p :: rest) item node =
      selectExcludeFilter (p :: rest2) item node :=
  ⟨rfl, rfl⟩

/-- C2: In Include mode every predicate is folded in order, each overwriting
both result components, so with last predicate `q` the decision equals the
decision of `[q]` alone: `selectedForRestore` is `q`'s selected component
and `childMayBeSelected` is `q`'s childMayMatch component ANDed with
`node.Type == "dir"`. -/
theorem include_last_predicate_wins (fns : List IncludeFn) (q : IncludeFn)
    (item : String) (node : Node) :
    selectIncludeFilter (fns ++ [q]) item node =
      ((q item).1, (q item).2 && (node.type == "dir"))
    ∧ selectIncludeFilter (fns ++ [q]) item node =
      selectIncludeFilter [q] item node := by
  constructor
  · simp [selectIncludeFilter, List.foldl_append]
  · simp [selectIncludeFilter, List.foldl_append]

/-- C5: With an empty predicate list both selectors return the zero-valued
decision `(false, false)` for every node and path. -/
theorem empty_predicates_zero_decision (item : String) (node : Node) :
    selectExcludeFilter [] item node = (false, false)
    ∧ selectIncludeFilter [] item node = (false, false) :=
  ⟨rfl, rfl⟩

/-- C6: For a node whose type is not `"dir"`, both selectors return
`childMayBeSelected = false`, for every path and every predicate list. -/
theorem nondir_child_never_selected (efns : List RejectFn) (ifns : List IncludeFn)
    (item : String) (node : Node) (h : (node.type == "dir") = false) :
    (selectExcludeFilter efns item node).2 = false
    ∧ (selectIncludeFilter ifns item node).2 = false := by
  constructor
  · cases efns with
    | nil => rfl
    | cons p rest => simp [selectExcludeFilter, h]
  · simp [selectIncludeFilter, h]

/-- Witness for C6 at a concrete non-directory node, with predicates that
answer positively, so only the node type forces the `false`. -/
theorem nondir_child_never_selected_witness :
    ((Node.mk "file").type == "dir") = false
    ∧ (selectExcludeFilter [fun _ => false] "a/b" (Node.mk "file")).2 = false
    ∧ (selectIncludeFilter [fun _ => (true, true)] "a/b" (Node.mk "file")).2 = false := by
  refine ⟨by decide, ?_, ?_⟩
  · exact (nondir_child_never_selected [fun _ => false] [fun _ => (true, true)]
      "a/b" (Node.mk "file") (by decide)).1
  · exact (nondir_child_never_selected [fun _ => false] [fun _ => (true, true)]
      "a/b" (Node.mk "file") (by decide)).2

end Restore

namespace Restore

/-- The mutable state `runRestore` shares with the engine callbacks: the
closure-captured `totalErrors` counter and the diagnostic lines written
through `msg.E` / `msg.P` (modelled as an append-only list). -/
structure Session where
  totalErrors : Nat
  outputLines : List String
deriving DecidableEq, Repr

def Session.empty : Session := { totalErrors := 0, outputLines := [] }

def Session.emit (s : Session) (line : String) : Session :=
  { s with outputLines := s.outputLines ++ [line] }

/-- The `res.Error` callback: emits `"ignoring error for %s: %s\n"`,
increments `totalErrors`, and returns `nil` (here `none`), telling the
engine to continue. -/
def resError (location cause : String) (s : Session) : Option String × Session :=
  (none,
    { totalErrors := s.totalErrors + 1,
      outputLines := s.outputLines ++
        ["ignoring error for " ++ location ++ ": " ++ cause ++ "\n"] })

/-- The `res.Warn` callback: emits `"Warning: %s\n"` and leaves the counter
untouched. -/
def resWarn (message : String) (s : Session) : Session :=
  s.emit ("Warning: " ++ message ++ "\n")

/-- One callback invocation performed by the external restore/verify engine
while it runs. -/
inductive EngineEvent where
  | err (location cause : String)
  | warn (message : String)

/-- Folding a sequence of engine callback invocations over the session,
exactly as the installed `res.Error` / `res.Warn` closures would run. -/
def runCallbacks : List EngineEvent → Session → Session
  | [], s => s
  | EngineEvent.err l c :: rest, s => runCallbacks rest (resError l c s).2
  | EngineEvent.warn m :: rest, s => runCallbacks rest (resWarn m s)

/-- Number of `err` events in an engine trace. -/
def countErrs : List EngineEvent → Nat
  | [] => 0
  | EngineEvent.err _ _ :: rest => countErrs rest + 1
  | EngineEvent.warn _ :: rest => countErrs rest

theorem runCallbacks_totalErrors (events : List EngineEvent) (s : Session) :
    (runCallbacks events s).totalErrors = s.totalErrors + countErrs events := by
  induction events generalizing s with
  | nil => simp [runCallbacks, countErrs]
  | cons e rest ih =>
    cases e with
    | err l c =>
      simp only [runCallbacks, countErrs, ih, resError]
      omega
    | warn m =>
      simp only [runCallbacks, countErrs, ih, resWarn, Session.emit]

/-- The fields of `RestoreOptions` the control flow reads. -/
structure RestoreOptions where
  Excludes : List String
  InsensitiveExcludes : List String
  Includes : List String
  InsensitiveIncludes : List String
  Target : String
  Sparse : Bool
  Verify : Bool

/-- The global options the control flow reads. -/
structure GlobalOptions where
  json : Bool

def hasExcludes (opts : RestoreOptions) : Bool :=
  opts.Excludes.length > 0 || opts.InsensitiveExcludes.length > 0

def hasIncludes (opts : RestoreOptions) : Bool :=
  opts.Includes.length > 0 || opts.InsensitiveIncludes.length > 0

/-- Every external collaborator of `runRestore`, supplied as data: the two
`CollectPatterns` results, the outcomes of repository opening, snapshot
resolution, index load and subtree lookup, the callback traces and return
values of `RestoreTo` and `VerifyFiles`, plus the strings the progress
messages interpolate. -/
structure World where
  excludeCompile : Except String (List RejectFn)
  includeCompile : Except String (List IncludeFn)
  openResult : Except String Unit
  findLatestResult : Except String Unit
  loadIndexResult : Except String Unit
  findTreeResult : Except String Unit
  snapshotDesc : String
  restoreEvents : List EngineEvent
  restoreToResult : Option String
  verifyEvents : List EngineEvent
  verifyFilesResult : Except String Nat
  elapsed : String

/-- How the command run ends: a plain returned error (`return err`), a
fatal error built with `errors.Fatal*` (its message), or success. -/
inductive Outcome where
  | returnedError (e : String)
  | fatalMsg (msg : String)
  | ok
deriving DecidableEq, Repr

structure RunResult where
  outcome : Outcome
  session : Session
deriving DecidableEq, Repr

/-- Go's `%v` rendering of the `args` string slice. -/
def formatArgs (args : List String) : String :=
  "[" ++ String.intercalate " " args ++ "]"

/-- Session right after the `restoring %s to %s` progress line (printed only
when not in JSON mode), with the counter at its initial zero. -/
def initialSession (gopts : GlobalOptions) (opts : RestoreOptions) (w : World) : Session :=
  { totalErrors := 0,
    outputLines :=
      if gopts.json then []
      else ["restoring " ++ w.snapshotDesc ++ " to " ++ opts.Target ++ "\n"] }

/-- The tail of `runRestore` from `opts.Verify` onward: optional
`verifying files` line, `VerifyFiles` with its callback trace, the second
`totalErrors > 0` gate, and the final success message. -/
def verifyPhase (opts : RestoreOptions) (gopts : GlobalOptions) (w : World)
    (s1 : Session) : RunResult :=
  let s2 := if gopts.json then s1
            else s1.emit ("verifying files in " ++ opts.Target ++ "\n")
  let s3 := runCallbacks w.verifyEvents s2
  match w.verifyFilesResult with
  | Except.error e => { outcome := Outcome.returnedError e, session := s3 }
  | Except.ok count =>
    if s3.totalErrors > 0 then
      { outcome := Outcome.fatalMsg ("There were " ++ toString s3.totalErrors ++ " errors\n"),
        session := s3 }
    else
      { outcome := Outcome.ok,
        session :=
          if gopts.json then s3
          else s3.emit ("finished verifying " ++ toString count ++ " files in "
            ++ opts.Target ++ " (took " ++ w.elapsed ++ ")\n") }

/-- The tail of `runRestore` from `res.RestoreTo` onward: the restore
callback trace, `RestoreTo`'s return value, the first `totalErrors > 0`
gate, and the conditional verify phase. -/
def restorePhase (opts : RestoreOptions) (gopts : GlobalOptions) (w : World) : RunResult :=
  let s1 := runCallbacks w.restoreEvents (initialSession gopts opts w)
  match w.restoreToResult with
  | some e => { outcome := Outcome.returnedError e, session := s1 }
  | none =>
    if s1.totalErrors > 0 then
      { outcome := Outcome.fatalMsg ("There were " ++ toString s1.totalErrors ++ " errors\n"),
        session := s1 }
    else if opts.Verify then verifyPhase opts gopts w s1
    else { outcome := Outcome.ok, session := s1 }

/-- The full control flow of `runRestore`, in source order: pattern
compilation, the argument/target/filter validation, repository opening,
snapshot resolution, index load, subtree lookup, then the restore and
conditional verify phases. -/
def runRestore (opts : RestoreOptions) (gopts : GlobalOptions) (args : List String)
    (w : World) : RunResult :=
  match w.excludeCompile with
  | Except.error e => { outcome := Outcome.returnedError e, session := Session.empty }
  | Except.ok _excludePatternFns =>
  match w.includeCompile with
  | Except.error e => { outcome := Outcome.returnedError e, session := Session.empty }
  | Except.ok _includePatternFns =>
  match args with
  | [] => { outcome := Outcome.fatalMsg "no snapshot ID specified", session := Session.empty }
  | _ :: _ :: _ =>
    { outcome := Outcome.fatalMsg ("more than one snapshot ID specified: " ++ formatArgs args),
      session := Session.empty }
  | [_snapshotIDString] =>
  if opts.Target == "" then
    { outcome := Outcome.fatalMsg "please specify a directory to restore to (--target)",
      session := Session.empty }
  else if hasExcludes opts && hasIncludes opts then
    { outcome := Outcome.fatalMsg "exclude and include patterns are mutually exclusive",
      session := Session.empty }
  else
  match w.openResult with
  | Except.error e => { outcome := Outcome.returnedError e, session := Session.empty }
  | Except.ok _ =>
  match w.findLatestResult with
  | Except.error e =>
    { outcome := Outcome.fatalMsg ("failed to find snapshot: " ++ e), session := Session.empty }
  | Except.ok _ =>
  match w.loadIndexResult with
  | Except.error e => { outcome := Outcome.returnedError e, session := Session.empty }
  | Except.ok _ =>
  match w.findTreeResult with
  | Except.error e => { outcome := Outcome.returnedError e, session := Session.empty }
  | Except.ok _ =>
  restorePhase opts gopts w

/-- Helper: with both pattern compilations succeeding, exactly one argument,
a non-empty target, not both filter groups present, and every
pre-restore external step succeeding, `runRestore` reduces to the
restore phase. -/
theorem runRestore_validation_passes (opts : RestoreOptions) (gopts : GlobalOptions)
    (a : String) (w : World) (efns : List RejectFn) (ifns : List IncludeFn)
    (h1 : w.excludeCompile = Except.ok efns)
    (h2 : w.includeCompile = Except.ok ifns)
    (h3 : (opts.Target == "") = false)
    (h4 : (hasExcludes opts && hasIncludes opts) = false)
    (h5 : w.openResult = Except.ok ())
    (h6 : w.findLatestResult = Except.ok ())
    (h7 : w.loadIndexResult = Except.ok ())
    (h8 : w.findTreeResult = Except.ok ()) :
    runRestore opts gopts [a] w = restorePhase opts gopts w := by
  simp [runRestore, h1, h2, h3, h4, h5, h6, h7, h8]

/-- C10: pattern compilation runs before all argument validation: a failing
`CollectPatterns` (exclude first, then include) is returned as-is for every
argument list, target and filter configuration, so it takes precedence over
every validation error. -/
theorem pattern_compile_error_first (opts : RestoreOptions) (gopts : GlobalOptions)
    (args : List String) (w : World) (e : String) :
    (w.excludeCompile = Except.error e →
      runRestore opts gopts args w =
        { outcome := Outcome.returnedError e, session := Session.empty })
    ∧ (∀ efns : List RejectFn, w.excludeCompile = Except.ok efns →
        w.includeCompile = Except.error e →
        runRestore opts gopts args w =
          { outcome := Outcome.returnedError e, session := Session.empty }) := by
  constructor
  · intro h1
    simp [runRestore, h1]
  · intro efns h1 h2
    simp [runRestore, h1, h2]

/-- Witness for C10: a pattern-file read error is returned although the
argument list is empty, the target is empty and both filter groups are
present — every validation error is preempted. -/
theorem pattern_compile_error_first_witness :
    runRestore
      { Excludes := ["*.tmp"], InsensitiveExcludes := [], Includes := ["*.go"],
        InsensitiveIncludes := [], Target := "", Sparse := false, Verify := false }
      { json := false } []
      { excludeCompile := Except.error "open excl.txt: permission denied",
        includeCompile := Except.ok [],
        openResult := Except.error "repo must not be opened",
        findLatestResult := Except.error "unused",
        loadIndexResult := Except.error "unused",
        findTreeResult := Except.error "unused",
        snapshotDesc := "deadbeef", restoreEvents := [], restoreToResult := none,
        verifyEvents := [], verifyFilesResult := Except.ok 0, elapsed := "0s" } =
      { outcome := Outcome.returnedError "open excl.txt: permission denied",
        session := Session.empty } := by
  exact (pattern_compile_error_first _ _ _ _ _).1 rfl

/-- C4: the four validation checks (zero arguments, more than one argument,
empty target, exclude and include both present) each produce their fatal
message, in source order; the world `w` — in particular every repository
operation — is universally quantified and unconstrained, so none of these
outcomes involves repository access, and when validation passes the very
next consulted collaborator is the repository open. -/
theorem validation_before_repo_access (opts : RestoreOptions) (gopts : GlobalOptions)
    (w : World) (efns : List RejectFn) (ifns : List IncludeFn)
    (h1 : w.excludeCompile = Except.ok efns)
    (h2 : w.includeCompile = Except.ok ifns) :
    (runRestore opts gopts [] w =
      { outcome := Outcome.fatalMsg "no snapshot ID specified", session := Session.empty })
    ∧ (∀ a b rest, runRestore opts gopts (a :: b :: rest) w =
        { outcome := Outcome.fatalMsg
            ("more than one snapshot ID specified: " ++ formatArgs (a :: b :: rest)),
          session := Session.empty })
    ∧ (∀ a, (opts.Target == "") = true →
        runRestore opts gopts [a] w =
          { outcome := Outcome.fatalMsg "please specify a directory to restore to (--target)",
            session := Session.empty })
    ∧ (∀ a, (opts.Target == "") = false →
        (hasExcludes opts && hasIncludes opts) = true →
        runRestore opts gopts [a] w =
          { outcome := Outcome.fatalMsg "exclude and include patterns are mutually exclusive",
            session := Session.empty })
    ∧ (∀ a e, (opts.Target == "") = false →
        (hasExcludes opts && hasIncludes opts) = false →
        w.openResult = Except.error e →
        runRestore opts gopts [a] w =
          { outcome := Outcome.returnedError e, session := Session.empty }) := by
  refine ⟨?_, ?_, ?_, ?_, ?_⟩
  · simp [runRestore, h1, h2]
  · intro a b rest
    simp [runRestore, h1, h2]
  · intro a h3
    simp [runRestore, h1, h2, h3]
  · intro a h3 h4
    simp [runRestore, h1, h2, h3, h4]
  · intro a e h3 h4 h5
    simp [runRestore, h1, h2, h3, h4, h5]

def worldC4 : World :=
  { excludeCompile := Except.ok [],
    includeCompile := Except.ok [],
    openResult := Except.error "repo must not be opened",
    findLatestResult := Except.error "unused",
    loadIndexResult := Except.error "unused",
    findTreeResult := Except.error "unused",
    snapshotDesc := "deadbeef", restoreEvents := [], restoreToResult := none,
    verifyEvents := [], verifyFilesResult := Except.ok 0, elapsed := "0s" }

def optsC4a : RestoreOptions :=
  { Excludes := [], InsensitiveExcludes := [], Includes := [], InsensitiveIncludes := [],
    Target := "", Sparse := false, Verify := false }

def optsC4b : RestoreOptions :=
  { Excludes := ["*.tmp"], InsensitiveExcludes := [], Includes := ["*.go"],
    InsensitiveIncludes := [], Target := "/restore/target", Sparse := false, Verify := false }

/-- Witness for C4: all four validation failures at concrete inputs, against
a world in which opening the repository fails — the fatal messages prove the
repository was never consulted. -/
theorem validation_before_repo_access_witness :
    runRestore optsC4a { json := false } [] worldC4 =
      { outcome := Outcome.fatalMsg "no snapshot ID specified", session := Session.empty }
    ∧ runRestore optsC4a { json := false } ["abc", "def"] worldC4 =
      { outcome := Outcome.fatalMsg "more than one snapshot ID specified: [abc def]",
        session := Session.empty }
    ∧ runRestore optsC4a { json := false } ["latest"] worldC4 =
      { outcome := Outcome.fatalMsg "please specify a directory to restore to (--target)",
        session := Session.empty }
    ∧ runRestore optsC4b { json := false } ["latest"] worldC4 =
      { outcome := Outcome.fatalMsg "exclude and include patterns are mutually exclusive",
        session := Session.empty } := by
  refine ⟨?_, ?_, ?_, ?_⟩
  · exact (validation_before_repo_access optsC4a { json := false } worldC4 [] [] rfl rfl).1
  · have h := (validation_before_repo_access optsC4a { json := false } worldC4 [] []
      rfl rfl).2.1 "abc" "def" []
    rw [h]
    decide
  · exact (validation_before_repo_access optsC4a { json := false } worldC4 [] []
      rfl rfl).2.2.1 "latest" rfl
  · exact (validation_before_repo_access optsC4b { json := false } worldC4 [] []
      rfl rfl).2.2.2.1 "latest" rfl rfl

/-- C8: every invocation of the `res.Error` callback returns the continue
decision (`none`, never an abort) and increments the shared counter by
exactly one while emitting one diagnostic line; every invocation of
`res.Warn` emits one diagnostic line and leaves the counter unchanged. -/
theorem callbacks_continue_and_count (location cause message : String) (s : Session) :
    (resError location cause s).1 = none
    ∧ (resError location cause s).2.totalErrors = s.totalErrors + 1
    ∧ (resError location cause s).2.outputLines =
        s.outputLines ++ ["ignoring error for " ++ location ++ ": " ++ cause ++ "\n"]
    ∧ (resWarn message s).totalErrors = s.totalErrors
    ∧ (resWarn message s).outputLines =
        s.outputLines ++ ["Warning: " ++ message ++ "\n"] :=
  ⟨rfl, rfl, rfl, rfl, rfl⟩

/-- C3: when `RestoreTo` returns without error but the counter is nonzero,
the run ends with the fatal `There were N errors` message and the session
exactly as the restore phase left it.  `opts.Verify` and every verify-phase
field of `w` are unconstrained, so the verify phase is never entered even
when `--verify` was requested. -/
theorem restore_errors_skip_verify (opts : RestoreOptions) (gopts : GlobalOptions)
    (a : String) (w : World) (efns : List RejectFn) (ifns : List IncludeFn)
    (h1 : w.excludeCompile = Except.ok efns)
    (h2 : w.includeCompile = Except.ok ifns)
    (h3 : (opts.Target == "") = false)
    (h4 : (hasExcludes opts && hasIncludes opts) = false)
    (h5 : w.openResult = Except.ok ())
    (h6 : w.findLatestResult = Except.ok ())
    (h7 : w.loadIndexResult = Except.ok ())
    (h8 : w.findTreeResult = Except.ok ())
    (h9 : w.restoreToResult = none)
    (h10 : 0 < countErrs w.restoreEvents) :
    runRestore opts gopts [a] w =
      { outcome := Outcome.fatalMsg
          ("There were " ++ toString (countErrs w.restoreEvents) ++ " errors\n"),
        session := runCallbacks w.restoreEvents (initialSession gopts opts w) } := by
  rw [runRestore_validation_passes opts gopts a w efns ifns h1 h2 h3 h4 h5 h6 h7 h8]
  have ht : (runCallbacks w.restoreEvents (initialSession gopts opts w)).totalErrors
      = countErrs w.restoreEvents := by
    rw [runCallbacks_totalErrors]
    simp [initialSession]
  have hpos : (runCallbacks w.restoreEvents (initialSession gopts opts w)).totalErrors > 0 := by
    rw [ht]
    exact h10
  simp only [restorePhase, h9]
  rw [if_pos hpos, ht]

def optsC3 : RestoreOptions :=
  { Excludes := ["*.tmp"], InsensitiveExcludes := [], Includes := [], InsensitiveIncludes := [],
    Target := "/restore/target", Sparse := false, Verify := true }

def worldC3 : World :=
  { excludeCompile := Except.ok [fun item => item == "skip.tmp"],
    includeCompile := Except.ok [],
    openResult := Except.ok (),
    findLatestResult := Except.ok (),
    loadIndexResult := Except.ok (),
    findTreeResult := Except.ok (),
    snapshotDesc := "deadbeef",
    restoreEvents :=
      [EngineEvent.err "/a" "permission denied",
       EngineEvent.warn "odd attribute",
       EngineEvent.err "/b" "permission denied",
       EngineEvent.err "/c" "short write"],
    restoreToResult := none,
    verifyEvents := [EngineEvent.err "/a" "content mismatch"],
    verifyFilesResult := Except.ok 7,
    elapsed := "12ms" }

/-- Witness for C3 (the spec's Scenario D with `--verify` requested): three
per-item restore errors end the run with `There were 3 errors` even though
`opts.Verify = true` and the world's verify phase would have failed too —
it is never consulted. -/
theorem restore_errors_skip_verify_witness :
    (runRestore optsC3 { json := false } ["latest"] worldC3).outcome =
      Outcome.fatalMsg "There were 3 errors\n"
    ∧ optsC3.Verify = true := by
  have h := restore_errors_skip_verify optsC3 { json := false } "latest" worldC3
    [fun item => item == "skip.tmp"] [] rfl rfl rfl rfl rfl rfl rfl rfl rfl (by decide)
  rw [h]
  exact ⟨rfl, rfl⟩

/-- Helper: the verify phase, entered with a clean counter, escalates a
nonzero verify-error count to the fatal summary and otherwise succeeds,
ending (outside JSON mode) with the `finished verifying` line. -/
theorem verifyPhase_spec (opts : RestoreOptions) (gopts : GlobalOptions) (w : World)
    (s1 : Session) (count : Nat)
    (hs1 : s1.totalErrors = 0)
    (h12 : w.verifyFilesResult = Except.ok count) :
    (0 < countErrs w.verifyEvents →
      (verifyPhase opts gopts w s1).outcome =
        Outcome.fatalMsg ("There were " ++ toString (countErrs w.verifyEvents) ++ " errors\n"))
    ∧ (countErrs w.verifyEvents = 0 →
      (verifyPhase opts gopts w s1).outcome = Outcome.ok
      ∧ (gopts.json = false →
          (verifyPhase opts gopts w s1).session.outputLines.getLast? =
            some ("finished verifying " ++ toString count ++ " files in " ++ opts.Target
              ++ " (took " ++ w.elapsed ++ ")\n"))) := by
  have hs2 : (if gopts.json then s1
      else s1.emit ("verifying files in " ++ opts.Target ++ "\n")).totalErrors = 0 := by
    split
    · exact hs1
    · simpa [Session.emit] using hs1
  have hs3 : (runCallbacks w.verifyEvents (if gopts.json then s1
      else s1.emit ("verifying files in " ++ opts.Target ++ "\n"))).totalErrors
      = countErrs w.verifyEvents := by
    rw [runCallbacks_totalErrors, hs2, Nat.zero_add]
  constructor
  · intro hpos
    simp only [verifyPhase, h12]
    rw [if_pos]
    · rw [hs3]
    · rw [hs3]
      exact hpos
  · intro hzero
    have hnpos : ¬ ((runCallbacks w.verifyEvents (if gopts.json then s1
        else s1.emit ("verifying files in " ++ opts.Target ++ "\n"))).totalErrors > 0) := by
      rw [hs3, hzero]
      omega
    constructor
    · simp only [verifyPhase, h12]
      rw [if_neg hnpos]
    · intro hjson
      simp only [verifyPhase, h12]
      rw [if_neg hnpos]
      simp [hjson, Session.emit, List.getLast?_append_cons]

/-- C7: with a clean restore (zero recorded errors) and `--verify`
requested, verify-phase callbacks continue the very same `totalErrors`
counter (first conjunct); after `VerifyFiles` returns a count, a nonzero
counter ends the run with the fatal `There were N errors` message where `N`
is the verify-phase error count, and a zero counter ends the run
successfully, reporting (outside JSON mode) the number of files verified
and the elapsed time. -/
theorem verify_shares_error_counter (opts : RestoreOptions) (gopts : GlobalOptions)
    (a : String) (w : World) (efns : List RejectFn) (ifns : List IncludeFn) (count : Nat)
    (h1 : w.excludeCompile = Except.ok efns)
    (h2 : w.includeCompile = Except.ok ifns)
    (h3 : (opts.Target == "") = false)
    (h4 : (hasExcludes opts && hasIncludes opts) = false)
    (h5 : w.openResult = Except.ok ())
    (h6 : w.findLatestResult = Except.ok ())
    (h7 : w.loadIndexResult = Except.ok ())
    (h8 : w.findTreeResult = Except.ok ())
    (h9 : w.restoreToResult = none)
    (h10 : countErrs w.restoreEvents = 0)
    (h11 : opts.Verify = true)
    (h12 : w.verifyFilesResult = Except.ok count) :
    (∀ s : Session, (runCallbacks w.verifyEvents s).totalErrors
        = s.totalErrors + countErrs w.verifyEvents)
    ∧ (0 < countErrs w.verifyEvents →
        (runRestore opts gopts [a] w).outcome =
          Outcome.fatalMsg ("There were " ++ toString (countErrs w.verifyEvents) ++ " errors\n"))
    ∧ (countErrs w.verifyEvents = 0 →
        (runRestore opts gopts [a] w).outcome = Outcome.ok
        ∧ (gopts.json = false →
            (runRestore opts gopts [a] w).session.outputLines.getLast? =
              some ("finished verifying " ++ toString count ++ " files in " ++ opts.Target
                ++ " (took " ++ w.elapsed ++ ")\n"))) := by
  have hs1 : (runCallbacks w.restoreEvents (initialSession gopts opts w)).totalErrors = 0 := by
    rw [runCallbacks_totalErrors, h10]
    simp [initialSession]
  have hrun : runRestore opts gopts [a] w =
      verifyPhase opts gopts w (runCallbacks w.restoreEvents (initialSession gopts opts w)) := by
    rw [runRestore_validation_passes opts gopts a w efns ifns h1 h2 h3 h4 h5 h6 h7 h8]
    simp only [restorePhase, h9]
    rw [if_neg (by omega), if_pos h11]
  have hspec := verifyPhase_spec opts gopts w
    (runCallbacks w.restoreEvents (initialSession gopts opts w)) count hs1 h12
  refine ⟨fun s => runCallbacks_totalErrors w.verifyEvents s, ?_, ?_⟩
  · intro hpos
    rw [hrun]
    exact hspec.1 hpos
  · intro hzero
    rw [hrun]
    exact hspec.2 hzero

def optsC7 : RestoreOptions :=
  { Excludes := [], InsensitiveExcludes := [], Includes := ["*.go"], InsensitiveIncludes := [],
    Target := "/restore/target", Sparse := false, Verify := true }

def worldC7bad : World :=
  { excludeCompile := Except.ok [],
    includeCompile := Except.ok [fun item => (item == "main.go", true)],
    openResult := Except.ok (),
    findLatestResult := Except.ok (),
    loadIndexResult := Except.ok (),
    findTreeResult := Except.ok (),
    snapshotDesc := "deadbeef",
    restoreEvents := [EngineEvent.warn "timestamp clamped"],
    restoreToResult := none,
    verifyEvents := [EngineEvent.err "/restore/target/main.go" "content mismatch"],
    verifyFilesResult := Except.ok 7,
    elapsed := "12ms" }

def worldC7ok : World :=
  { worldC7bad with verifyEvents := [EngineEvent.warn "slow disk"] }

/-- Witness for C7 (the spec's Scenario E and the clean case): a clean restore
followed by one verify mismatch fails with `There were 1 errors`; with no
verify failure the run succeeds and its last line reports the 7 verified
files and the elapsed time. -/
theorem verify_shares_error_counter_witness :
    (runRestore optsC7 { json := false } ["latest"] worldC7bad).outcome =
      Outcome.fatalMsg "There were 1 errors\n"
    ∧ (runRestore optsC7 { json := false } ["latest"] worldC7ok).outcome = Outcome.ok
    ∧ (runRestore optsC7 { json := false } ["latest"] worldC7ok).session.outputLines.getLast? =
        some "finished verifying 7 files in /restore/target (took 12ms)\n" := by
  refine ⟨?_, ?_, ?_⟩
  · have h := (verify_shares_error_counter optsC7 { json := false } "latest" worldC7bad
      [] [fun item => (item == "main.go", true)] 7
      rfl rfl rfl rfl rfl rfl rfl rfl rfl rfl rfl rfl).2.1 (by decide)
    rw [h]
    decide
  · exact ((verify_shares_error_counter optsC7 { json := false } "latest" worldC7ok
      [] [fun item => (item == "main.go", true)] 7
      rfl rfl rfl rfl rfl rfl rfl rfl rfl rfl rfl rfl).2.2 rfl).1
  · have h := ((verify_shares_error_counter optsC7 { json := false } "latest" worldC7ok
      [] [fun item => (item == "main.go", true)] 7
      rfl rfl rfl rfl rfl rfl rfl rfl rfl rfl rfl rfl).2.2 rfl).2 rfl
    rw [h]
    decide

end Restore
